import Mathlib

/-!
Shallow embedding of the synchronous inference request-serving subsystem of
`ml_pipeline_v3` (files `inference_container/inferencer.py` and
`inference_container/api_server.py`), together with theorems settling the
frozen claims about it.

Conventions of the embedding:
* pandas DataFrames become `Frame`: an explicit timestamp index (naive
  timestamps as `Int` nanoseconds/ordinals), an explicit ordered column list,
  and a cell-lookup function.  Row-level operations are embedded exactly as
  the source performs them (label/position writes never change the index).
* Python exceptions become `Except Exc`; a Python function that can raise
  returns `Except Exc α`.
* External collaborators (the MLflow-loaded predictor, the fitted scaler,
  `pd.Timedelta` parsing, SHA-256 hashing, `pd.to_datetime` / `pd.to_numeric`
  cell parsing) are opaque function parameters, since their code lives outside
  this repository.
* `data_utils.py` is imported by the source but absent from the sources
  provided; its helpers (`check_uniform`, `time_to_feature`,
  `strip_timezones`, `window_data`) are modelled from the spec, each marked
  `Modelled from the spec:` in its doc comment.
* Numeric cell values are carried as `Float` but never computed on or
  compared by any embedded control path (the source's branch decisions are on
  shapes, lengths, strings, and timestamps), so no claim depends on
  floating-point semantics.
-/

namespace KubeflowInfer

/-- Numeric cell values of a dataframe. -/
abbrev Val := Float

/-- Embedded time-indexed table (pandas `DataFrame` with a `DatetimeIndex`):
timestamps as integers, ordered column names, and cell contents by
(row position, column name). -/
structure Frame where
  index : List Int
  cols : List String
  cell : Nat → String → Val

/-- Row count, `len(df.index)`. -/
def Frame.nRows (f : Frame) : Nat := f.index.length

/-- Write `df.loc[df.index[r], cs] = vals` for an existing row position `r`:
updates cells, never the index. -/
def Frame.setCells (f : Frame) (r : Nat) (pairs : List (String × Val)) : Frame :=
  { f with cell := fun r' c => if r' = r then ((pairs.lookup c).getD (f.cell r' c)) else f.cell r' c }

/-- Drop columns, `df.drop(columns=cs)` (the dropped columns are always present at the
source's call sites, so the missing-label error cannot fire there). -/
def Frame.dropColsList (f : Frame) (cs : List String) : Frame :=
  { f with cols := f.cols.filter (fun c => ¬ c ∈ cs) }

/-- Column selection `df[cs]`. -/
def Frame.selectCols (f : Frame) (cs : List String) : Frame :=
  { f with cols := f.cols.filter (fun c => c ∈ cs) }

/-- Assignment `df[c] = v` for a fresh column (appends the column, index unchanged). -/
def Frame.addCol (f : Frame) (c : String) (v : Val) : Frame :=
  if c ∈ f.cols then f
  else { f with cols := f.cols ++ [c], cell := fun r c' => if c' = c then v else f.cell r c' }

/-- Embedded Python exception. -/
inductive Exc
  | keyError (key : String)
  | valueError (msg : String)
  | indexError (msg : String)
  | other (msg : String)
  deriving DecidableEq, Repr

/-- The source's module constant `TIME_FEATURES` (inferencer.py lines 28-29):
sin-encodings first, then cos-encodings. -/
def TIME_FEATURES : List String :=
  ["min_of_day_sin", "day_of_week_sin", "day_of_year_sin",
   "min_of_day_cos", "day_of_week_cos", "day_of_year_cos"]

/-- A numpy array as the pytorch branch handles it: a shape and an abstract
(entry-lookup) payload.  Only shapes steer control flow in the source. -/
structure NpArr where
  shape : List Int
  entry : Nat → Nat → Val

/-- Squeeze, `np.squeeze(0)`, of a leading singleton dimension (only applied by the
source under `ndim == 3 and shape[0] == 1`). -/
def NpArr.squeeze0 (a : NpArr) : NpArr :=
  { a with shape := a.shape.drop 1 }

/-- Flatten to 2-D, `arr.reshape(1, -1)`. -/
def NpArr.flatten2 (a : NpArr) : NpArr :=
  { a with shape := [1, a.shape.foldl (· * ·) 1] }

/-- The loaded MLflow predictor (opaque collaborator).  The three fields are
the three call shapes the source uses for the three model classes. -/
structure Predictor where
  pytorch : NpArr → Except Exc (List (List Val))
  prophet : Frame → Except Exc Frame
  stats : Nat → Option Frame → Except Exc Frame

/-- The fitted scaler (opaque collaborator).  `inverseTransform` stands for
the whole `subset_scaler`/`inverse_transform` application the source performs
inside one protected region. -/
structure Scaler where
  inverseTransform : Frame → Except Exc Frame

/-- The mutable inferencer state read by one inference call (`Inferencer`
fields of inferencer.py). -/
structure Service where
  model : Option Predictor
  scaler : Option Scaler
  df : Option Frame
  inputSeqLen : Nat
  outputSeqLen : Nat
  modelClass : String
  params : List (String × String)
  runId : String

/-- Process environment and external pure collaborators. -/
structure Env where
  sampleIdx : Nat
  inferenceLengthEnv : Nat
  disableLogUpload : Bool
  tdNs : String → Nat
  hashHead3 : Frame → String
  timeFeatVal : String → Int → Val

/-- Modelled from the spec: `time_to_feature` (data_utils.py, absent from the
sources) derives cyclical sin/cos time-feature columns from the index and
appends them; numeric encodings are delegated to the `timeFeatVal`
collaborator.  Row count and existing cells are unchanged. -/
def timeToFeature (env : Env) (f : Frame) : Frame :=
  { index := f.index
    cols := f.cols ++ TIME_FEATURES.filter (fun c => ¬ c ∈ f.cols)
    cell := fun r c =>
      if c ∈ TIME_FEATURES then env.timeFeatVal c (f.index.getD r 0) else f.cell r c }

/-- Modelled from the spec: `check_uniform` (data_utils.py, absent from the
sources) infers the uniform time step of the index, failing when the spacing
is degenerate ("Time frequency is zero" for a single-instant index) or
non-uniform. -/
def checkUniform (f : Frame) : Except Exc Int :=
  match f.index with
  | [] => .error (.valueError "empty index")
  | [_] => .error (.valueError "cannot infer frequency from one row")
  | t0 :: t1 :: rest =>
    let d := t1 - t0
    if d = 0 then .error (.valueError "Time frequency is zero")
    else if ((t1 :: rest).zip rest).all (fun p => p.2 - p.1 = d) then .ok d
    else .error (.valueError "non-uniform time index")

/-- Range index `pd.date_range(start=start, periods=n, freq=d)`. -/
def dateRange (start : Int) (n : Nat) (d : Int) : List Int :=
  (List.range n).map (fun i => start + d * Int.ofNat i)

/-- Shape-tolerant predictor call of `_perform_pytorch_inference`
(inferencer.py lines 546-576): try the window as given; on an exception try
the squeezed array (only when `ndim == 3` and `shape[0] == 1`), swallowing
its error; then the flattened 2-D array, swallowing its error; if every
strategy failed, re-raise the original exception. -/
def predictWithFallbacks {β : Type} (p : NpArr → Except Exc β) (data : NpArr) : Except Exc β :=
  match p data with
  | .ok r => .ok r
  | .error e0 =>
    let s1 : Option β :=
      if data.shape.length = 3 ∧ data.shape.headD 0 = 1 then
        match p data.squeeze0 with
        | .ok r => some r
        | .error _ => none
      else none
    match s1 with
    | some r => .ok r
    | none =>
      match p data.flatten2 with
      | .ok r => .ok r
      | .error _ => .error e0

/-- Modelled from the spec: `window_data` (data_utils.py, absent from the
sources) builds sliding windows of length `input_window_len`; window `i` is
the numeric tensor of shape `[1, input_window_len, feature_count]` starting
at row `i`. -/
def windowAt (f : Frame) (inLen : Nat) (i : Nat) : NpArr :=
  { shape := [1, (inLen : Int), (f.cols.length : Int)]
    entry := fun r c => f.cell (i + r) (f.cols.getD c "") }

/-- Number of sliding windows produced over `rows` rows
(`X_eval.shape[0]`). -/
def windowCount (rows inLen outLen : Nat) : Nat :=
  rows - (inLen + outLen) + 1

/-- Window advance `torch.cat((current_sequence[:, 1:, :], pred_tensor_full), dim=1)` with
`pred_tensor_full` holding the prediction vector in the leading slots and the
last real row's values in the remaining exogenous slots
(inferencer.py lines 603-624).  Shape is unchanged. -/
def NpArr.catShift (seq : NpArr) (inLen : Nat) (v : List Val) : NpArr :=
  { seq with entry := fun r c =>
      if r + 1 < inLen then seq.entry (r + 1) c
      else if c < v.length then v.getD c 0
      else seq.entry (inLen - 1) c }

/-- Context of the pytorch forecasting loop (fixed over all iterations). -/
structure PyCtx where
  env : Env
  dfEval : Frame
  feats : List String
  target : String
  inLen : Nat
  outLen : Nat
  nWin : Nat
  availFuture : Int
  horizon : Nat
  predict : NpArr → Except Exc (List (List Val))

/-- One block-step write into the prediction frame (inferencer.py lines
584-596): a full-feature-vector prediction fills every feature column, a
singleton prediction fills the target column only, any other width is logged
and written nowhere. -/
def writeBlockCell (ctx : PyCtx) (preds : Frame) (absolute : Nat) (v : List Val) : Frame :=
  if v.length = ctx.feats.length then preds.setCells absolute (ctx.feats.zip v)
  else if v.length = 1 then preds.setCells absolute [(ctx.target, v.headD 0)]
  else preds

/-- Inner block loop `for i in range(steps_to_use)` of
`_perform_pytorch_inference` (inferencer.py lines 579-627).  Writes the block
predictions into the output frame, then advances the sliding window
(teacher-forcing when a real row exists, otherwise the recursive extension);
the `break` on exhausted extension ends the block early without an error. -/
def pyInner (ctx : PyCtx) (mp : List (List Val)) (step : Nat) :
    Nat → Nat → Frame → NpArr → Except Exc (Frame × NpArr)
  | 0, _, preds, seq => .ok (preds, seq)
  | k + 1, i, preds, seq =>
    let absolute := step + i
    if ctx.horizon ≤ absolute then .ok (preds, seq)
    else
      match mp.get? i with
      | none => .error (.indexError "prediction block has fewer steps than requested")
      | some v =>
        let preds' := writeBlockCell ctx preds absolute v
        let nextIdx := ctx.env.sampleIdx + absolute + 1
        if nextIdx < ctx.nWin then
          pyInner ctx mp step k (i + 1) preds' (windowAt ctx.dfEval ctx.inLen nextIdx)
        else
          let extensionIdx : Int := ((absolute : Int) + 1) - ctx.availFuture
          if extensionIdx < (preds'.nRows : Int) then
            let featureDim := seq.shape.getLastD 0
            if featureDim < (v.length : Int) then
              .error (.other "recursive extension pad exceeds feature dimension")
            else pyInner ctx mp step k (i + 1) preds' (seq.catShift ctx.inLen v)
          else .ok (preds', seq)

/-- Outer loop `for step in range(local_inference_length)` of
`_perform_pytorch_inference` (inferencer.py lines 541-655).  One predictor
call (with shape fallbacks) per iteration, then the block write.  The
source's `step += steps_to_use - 1` reassigns the loop variable of a Python
`for`, which does not affect iteration, so the loop body runs once for every
`step` in `range(local_inference_length)`. -/
def pyOuter (ctx : PyCtx) : Nat → Nat → Frame → NpArr → Except Exc Frame
  | 0, _, preds, _ => .ok preds
  | k + 1, step, preds, seq =>
    match predictWithFallbacks ctx.predict seq with
    | .error e => .error e
    | .ok mp =>
      let stepsToUse := min ctx.outLen (ctx.horizon - step)
      match pyInner ctx mp step stepsToUse 0 preds seq with
      | .error e => .error e
      | .ok (preds', seq') => pyOuter ctx k (step + 1) preds' seq'

/-- Setup plus forecasting loop of `_perform_pytorch_inference`
(inferencer.py lines 499-659): feature/target resolution, window
construction, and the block loop, up to (but excluding) the time-feature drop
and inverse scaling. -/
def pytorchLoopRun (env : Env) (svc : Service) (pred : Predictor)
    (dfEval dfPred0 : Frame) (L : Nat) : Except Exc Frame :=
  let feats := dfEval.cols.filter (fun c => ¬ c ∈ TIME_FEATURES)
  let target := if "value" ∈ dfEval.cols then "value" else "down"
  let dfPred := if target ∈ dfPred0.cols then dfPred0 else dfPred0.addCol target 0
  let nWin := windowCount dfEval.nRows svc.inputSeqLen svc.outputSeqLen
  if env.sampleIdx < nWin then
    let ctx : PyCtx :=
      { env := env, dfEval := dfEval, feats := feats, target := target
        inLen := svc.inputSeqLen, outLen := svc.outputSeqLen, nWin := nWin
        availFuture := min ((nWin : Int) - (env.sampleIdx : Int)) (L : Int)
        horizon := L, predict := pred.pytorch }
    pyOuter ctx L 0 dfPred (windowAt dfEval svc.inputSeqLen env.sampleIdx)
  else .error (.indexError "X_eval sample index out of range")

/-- Inverse scaling as the pytorch branch performs it (inferencer.py lines
663-688): the `subset_scaler`/`inverse_transform` region is protected by
`try/except`, so a scaler failure falls back to the raw scaled frame; a
missing scaler likewise yields the raw frame.  On success pandas rebuilds the
frame over the input's index and columns. -/
def applyInverseScalingCaught (scaler : Option Scaler) (f : Frame) : Frame :=
  match scaler with
  | none => f
  | some s =>
    match s.inverseTransform f with
    | .ok inv => { index := f.index, cols := f.cols, cell := inv.cell }
    | .error _ => f

/-- Inverse scaling as the prophet and statsforecast branches perform it
(inferencer.py lines 729-743 and 796-810): no `try/except` around
`inverse_transform`, so a scaler failure propagates as an exception; a
missing scaler yields the raw frame with a warning. -/
def applyInverseScalingStrict (scaler : Option Scaler) (f : Frame) : Except Exc Frame :=
  match scaler with
  | none => .ok f
  | some s =>
    match s.inverseTransform f with
    | .ok inv => .ok { index := f.index, cols := f.cols, cell := inv.cell }
    | .error e => .error e

/-- Embeds `_perform_pytorch_inference` (inferencer.py lines 499-715): the loop, the
time-feature column drop, then the caught inverse scaling. -/
def performPytorch (env : Env) (svc : Service) (pred : Predictor)
    (dfEval dfPred : Frame) (L : Nat) : Except Exc Frame :=
  match pytorchLoopRun env svc pred dfEval dfPred L with
  | .error e => .error e
  | .ok g => .ok (applyInverseScalingCaught svc.scaler (g.dropColsList TIME_FEATURES))

/-- Embeds `_perform_prophet_inference` (inferencer.py lines 717-749): one predictor
call over the whole horizon frame, then strict inverse scaling. -/
def performProphet (pred : Predictor) (scaler : Option Scaler) (dfPred : Frame) :
    Except Exc Frame :=
  match pred.prophet dfPred with
  | .error e => .error e
  | .ok out => applyInverseScalingStrict scaler out

/-- The statsforecast branch's choice of horizon and exogenous frame
(inferencer.py lines 754-786).  Note the short-circuit of the Python `or`:
`params["frequency"]` is only read when `params["downsampling"] != "0"`, and
a missing key raises `KeyError`.  With no resampling the call horizon is the
module constant `INFERENCE_LENGTH`; with resampling it is the exact-rational
ceiling `ceil(horizon * native_freq / downsampling_freq)` (the source's
`np.ceil` on the Timedelta quotient) over a time-feature frame regenerated at
the native frequency. -/
def sfPlan (env : Env) (svc : Service) (dfEval dfPred : Frame) (L : Nat) :
    Except Exc (Nat × Option Frame) :=
  match svc.params.lookup "downsampling" with
  | none => .error (.keyError "downsampling")
  | some d =>
    if d = "0" then .ok (env.inferenceLengthEnv, some (dfPred.selectCols TIME_FEATURES))
    else
      match svc.params.lookup "frequency" with
      | none => .error (.keyError "frequency")
      | some fq =>
        if d = fq then .ok (env.inferenceLengthEnv, some (dfPred.selectCols TIME_FEATURES))
        else
          let dNs := env.tdNs d
          let fNs := env.tdNs fq
          if dNs = 0 then .error (.other "division by zero in resampled horizon")
          else if env.sampleIdx < dfEval.nRows then
            let infLen := (L * fNs + dNs - 1) / dNs
            let frame2 := timeToFeature env
              { index := dateRange (dfEval.index.getD env.sampleIdx 0) infLen (fNs : Int)
                cols := dfEval.cols, cell := fun _ _ => 0 }
            .ok (infLen, some (frame2.selectCols TIME_FEATURES))
          else .error (.indexError "sample index out of range for resampled start")

/-- Embeds `_perform_statsforecast_inference` (inferencer.py lines 751-816): plan
the horizon, one predictor call, strict inverse scaling.  The second
component records the horizon of every predictor call made. -/
def performStatsforecast (env : Env) (svc : Service) (pred : Predictor)
    (dfEval dfPred : Frame) (L : Nat) : Except Exc (Frame × List Nat) :=
  match sfPlan env svc dfEval dfPred L with
  | .error e => .error e
  | .ok (h, exog) =>
    match pred.stats h exog with
    | .error e => .error e
    | .ok out =>
      match applyInverseScalingStrict svc.scaler out with
      | .error e => .error e
      | .ok g => .ok (g, [h])

/-- State of the log sink and of the dedup set `_emitted_prediction_keys`.
The appended JSONL record is abstracted to its dedup-relevant content
`(run_id, prediction_hash)`; the MinIO append is modelled as reliable (its
bounded retry and the Kafka mirror are outside every claim). -/
structure SinkState where
  emitted : List (String × String)
  log : List (String × String)
  deriving DecidableEq, Repr

/-- Embeds `_save_and_publish_predictions` (inferencer.py lines 818-1063): honour
the upload kill-switch, hash the first rows of the prediction table, skip the
append when the `(run_id, prediction_hash)` key was already emitted for a
non-empty run id and hash, otherwise record the key and append one line. -/
def saveAndPublish (env : Env) (svc : Service) (sink : SinkState) (f : Frame) : SinkState :=
  if env.disableLogUpload then sink
  else
    let predHash := env.hashHead3 f
    let runId := svc.runId
    if runId ≠ "" ∧ predHash ≠ "" ∧ (runId, predHash) ∈ sink.emitted then sink
    else
      { emitted :=
          if runId ≠ "" ∧ predHash ≠ "" then sink.emitted ++ [(runId, predHash)]
          else sink.emitted
        log := sink.log ++ [(runId, predHash)] }

/-- Embeds `Inferencer.perform_inference` (inferencer.py lines 357-497).  `ok none`
is the source's `return None` (no data / model not loaded / skipped); an
`error` is a raised exception, which the caller maps to an execution
failure. -/
def performInference (env : Env) (svc : Service) (dfEvalOpt : Option Frame)
    (lenOpt : Option Nat) (sink : SinkState) : Except Exc (Option Frame) × SinkState :=
  let dfEval? : Option Frame :=
    match dfEvalOpt with
    | some d => some d
    | none => svc.df
  match dfEval? with
  | none => (.ok none, sink)
  | some dfEval =>
    match svc.model with
    | none => (.ok none, sink)
    | some pred =>
      let L := lenOpt.getD env.inferenceLengthEnv
      let totalRows := dfEval.nRows
      let minNeeded := svc.inputSeqLen + svc.outputSeqLen
      if 0 < svc.inputSeqLen ∧ totalRows < minNeeded then (.ok none, sink)
      else if totalRows = 0 then (.ok none, sink)
      else
        let requiredIndex := env.sampleIdx + svc.inputSeqLen
        let adjustedStart := if totalRows ≤ requiredIndex then totalRows - 1 else requiredIndex
        match checkUniform dfEval with
        | .error e => (.error e, sink)
        | .ok td =>
          let start := dfEval.index.getD adjustedStart 0
          let dfPred := timeToFeature env
            { index := dateRange start L td, cols := dfEval.cols, cell := fun _ _ => 0 }
          let branch : Except Exc Frame :=
            if svc.modelClass = "pytorch" then performPytorch env svc pred dfEval dfPred L
            else if svc.modelClass = "prophet" then performProphet pred svc.scaler dfPred
            else if svc.modelClass = "statsforecast" then
              (performStatsforecast env svc pred dfEval dfPred L).map Prod.fst
            else .error (.valueError ("Unsupported model class: " ++ svc.modelClass))
          match branch with
          | .error e => (.error e, sink)
          | .ok f => (.ok (some f), saveAndPublish env svc sink f)

/-- Inbound request body (`PredictRequest` of api_server.py lines 350-355):
a mapping of column name to raw cell arrays, an optional explicit index
column, and an optional horizon.  Raw cells stay in an opaque type `α`;
`pd.to_datetime(errors="coerce")` and `pd.to_numeric(errors="raise")` are the
collaborator parameters `parseTs`/`toNum`. -/
structure Payload (α : Type) where
  data : List (String × List α)
  indexCol : Option String
  inferenceLength : Option Nat

/-- The distinct client-error signals of `_prepare_dataframe_for_inference`
(each a specific `HTTPException(400)` detail). -/
inductive PrepErr
  | emptyPayload
  | dataInterp
  | emptyData
  | noTimestampColumn
  | invalidTimestamp (col : String)
  | noDatetimeIndex
  | emptyAfterNormalization
  | duplicateTimestamps (ts : Int) (rows : Nat)
  | nonNumericColumns (cols : List String)
  | missingFeatureColumns (cols : List String)
  deriving DecidableEq, Repr

/-- Tag of the 400 detail, for endpoint bookkeeping. -/
def PrepErr.kind : PrepErr → String
  | .emptyPayload => "EmptyPayload"
  | .dataInterp => "DataInterp"
  | .emptyData => "EmptyData"
  | .noTimestampColumn => "NoTimestampColumn"
  | .invalidTimestamp _ => "InvalidTimestamp"
  | .noDatetimeIndex => "NoDatetimeIndex"
  | .emptyAfterNormalization => "EmptyAfterNormalization"
  | .duplicateTimestamps _ _ => "DuplicateTimestamps"
  | .nonNumericColumns _ => "NonNumericColumns"
  | .missingFeatureColumns _ => "MissingFeatureColumns"

/-- Stable insertion of an (original-position, timestamp) pair into a list
sorted by timestamp. -/
def insertByTs (p : Nat × Int) : List (Nat × Int) → List (Nat × Int)
  | [] => [p]
  | q :: rest => if p.2 < q.2 then p :: q :: rest else q :: insertByTs p rest

/-- Sort (original-position, timestamp) pairs by timestamp
(`df.sort_index()`; relative order of equal timestamps is unspecified by
pandas' default sort and irrelevant to every claim). -/
def sortPairs : List (Nat × Int) → List (Nat × Int)
  | [] => []
  | p :: rest => insertByTs p (sortPairs rest)

/-- Ascending insertion sort on strings (`sorted(...)` over column names). -/
def insertStr (s : String) : List String → List String
  | [] => [s]
  | t :: rest => if s < t then s :: t :: rest else t :: insertStr s rest

def sortStrings : List String → List String
  | [] => []
  | s :: rest => insertStr s (sortStrings rest)

/-- Modelled from the spec: `strip_timezones` (data_utils.py, absent from the
sources) normalizes the index to naive UTC and reports whether anything was
stripped; on the already-naive integer timestamps of this embedding it is the
identity. -/
def stripTimezones (idx : List Int) : List Int × Bool := (idx, false)

/-- Timestamp-indexed raw table after index resolution
(`df_tmp` once `df_tmp.index = idx` has run). -/
structure RawIndexed (α : Type) where
  index : List Int
  cols : List (String × List α)

/-- Steps 1-7 of `_prepare_dataframe_for_inference` (api_server.py lines
470-539): non-empty data check, tabularization, timestamp-column resolution
by priority, parse with rejection of unparseable values, sort by timestamp,
timezone normalization, and the post-normalization emptiness check. -/
def prepareStage1 {α : Type} [Inhabited α] (parseTs : α → Option Int) (p : Payload α) :
    Except PrepErr (RawIndexed α) :=
  if p.data.isEmpty then .error .emptyPayload
  else
    let lens := p.data.map (fun kv => kv.2.length)
    if ¬ lens.all (fun l => l = lens.headD 0) then .error .dataInterp
    else if lens.headD 0 = 0 then .error .emptyData
    else
      let colNames := p.data.map Prod.fst
      let candidates :=
        (match p.indexCol with | some c => [c] | none => []) ++
        (["ts", "timestamp", "time", "date"].filter
          (fun c => c ∈ colNames ∧ p.indexCol ≠ some c))
      if candidates.isEmpty then .error .noTimestampColumn
      else
        match candidates.find? (fun c => c ∈ colNames) with
        | none => .error .noDatetimeIndex
        | some cand =>
          let raw := (p.data.lookup cand).getD []
          let parsed := raw.map parseTs
          if parsed.any (fun o => o.isNone) then .error (.invalidTimestamp cand)
          else
            let idx := parsed.map (fun o => o.getD 0)
            let rest := p.data.filter (fun kv => kv.1 ≠ cand)
            let perm := sortPairs idx.enum
            let sortedIdx := perm.map Prod.snd
            let sortedCols := rest.map
              (fun kv => (kv.1, perm.map (fun pr => kv.2.getD pr.1 default)))
            let (normIdx, _) := stripTimezones sortedIdx
            if normIdx.isEmpty then .error .emptyAfterNormalization
            else .ok { index := normIdx, cols := sortedCols }

/-- Steps 8-11 of `_prepare_dataframe_for_inference` (api_server.py lines
541-574): the duplicate-timestamp guard, numeric coercion of every column,
the required-base-column check, and the time-feature derivation. -/
def prepareStage2 {α : Type} (env : Env) (toNum : α → Option Val)
    (required : List String) (s : RawIndexed α) : Except PrepErr (Frame × List String) :=
  if s.index.eraseDups.length = 1 ∧ 1 < s.index.length then
    .error (.duplicateTimestamps (s.index.headD 0) s.index.length)
  else
    let failures := (s.cols.filter (fun kv => kv.2.any (fun v => (toNum v).isNone))).map Prod.fst
    if ¬ failures.isEmpty then .error (.nonNumericColumns (sortStrings failures))
    else
      let presentCols := s.cols.map Prod.fst
      let missing := required.filter (fun c => ¬ c ∈ presentCols)
      if ¬ missing.isEmpty then .error (.missingFeatureColumns (sortStrings missing))
      else
        let numData := s.cols.map (fun kv => (kv.1, kv.2.map (fun v => (toNum v).getD 0)))
        let f : Frame :=
          { index := s.index, cols := presentCols
            cell := fun r c => ((numData.lookup c).getD []).getD r 0 }
        .ok (timeToFeature env f, sortStrings required)

/-- Embeds `_prepare_dataframe_for_inference` (api_server.py lines 457-574). -/
def prepare {α : Type} [Inhabited α] (env : Env) (parseTs : α → Option Int)
    (toNum : α → Option Val) (required : List String) (p : Payload α) :
    Except PrepErr (Frame × List String) :=
  match prepareStage1 parseTs p with
  | .error e => .error e
  | .ok s => prepareStage2 env toNum required s

/-- Embeds `_expected_feature_columns` (api_server.py lines 421-438): the base
feature columns of the service's cached dataframe, excluding the derived
time-feature columns.  (The real `Inferencer` exposes no
`expected_feature_columns` attribute, so only the cached dataframe
contributes.) -/
def expectedFeatureColumns (svc : Option Service) : List String :=
  match svc with
  | none => []
  | some s =>
    match s.df with
    | some d => (d.cols.filter (fun c => ¬ c ∈ TIME_FEATURES)).eraseDups
    | none => []

/-- Python exception class name, as stored in
`queue_metrics["last_error_type"]`. -/
def Exc.pyName : Exc → String
  | .keyError _ => "KeyError"
  | .valueError _ => "ValueError"
  | .indexError _ => "IndexError"
  | .other _ => "Exception"

/-- The endpoint-level counters of `queue_metrics` that the claims concern
(api_server.py lines 188-208; timing aggregates carry no claim and are
omitted). -/
structure Metrics where
  enqueued : Nat
  completed : Nat
  servedCached : Nat
  error500Total : Nat
  active : Int
  lastErrorType : Option String
  deriving DecidableEq, Repr

/-- HTTP-level outcome of one `/predict` request. -/
inductive ApiRes
  | successCached
  | success (rows : Nat)
  | failure (status : Nat) (kind : String)
  deriving DecidableEq, Repr

/-- Status code of an outcome. -/
def ApiRes.status : ApiRes → Nat
  | .successCached => 200
  | .success _ => 200
  | .failure st _ => st

/-- Concurrency-gate events of one request, in order. -/
inductive GateEvent
  | acquire
  | release
  deriving DecidableEq, Repr

/-- Inputs of one `/predict` invocation: request body, query-string horizon,
the inferencer (None when `_get_inferencer` raises), the cache/force-ok
feature toggles, and the cached last successful response (abstracted to its
row count). -/
structure EndpointIn (α : Type) where
  req : Option (Payload α)
  queryLen : Option Nat
  svc : Option Service
  cacheEnabled : Bool
  forceOk : Bool
  lastResponse : Option Nat

/-- The `try ... finally` region of `predict` that runs while the
concurrency slot is held (api_server.py lines 926-999): the
inferencer-unavailable 503, the executor call, the mapping of `None` to the
500 "Inference skipped" error, of `KeyError` to a 400 missing-columns client
error, and of any other exception to the 500 execution failure — each with
its `queue_metrics` bookkeeping. -/
def gatedBody (env : Env) (svcOpt : Option Service) (df : Frame) (effLen : Nat)
    (sink : SinkState) (m : Metrics) : Except (Nat × String) Nat × Metrics × SinkState :=
  match svcOpt with
  | none =>
    (.error (503, "InferencerUnavailable"),
     { m with error500Total := m.error500Total + 1
              lastErrorType := some "InferencerUnavailable" }, sink)
  | some s =>
    match performInference env s (some df) (some effLen) sink with
    | (.ok none, sink') =>
      (.error (500, "InferenceSkipped"),
       { m with error500Total := m.error500Total + 1
                lastErrorType := some "InferenceSkipped" }, sink')
    | (.ok (some f), sink') =>
      (.ok f.nRows,
       { m with completed := m.completed + 1, lastErrorType := none }, sink')
    | (.error (.keyError _), sink') =>
      (.error (400, "MissingColumns"),
       { m with lastErrorType := some "MissingColumns" }, sink')
    | (.error e, sink') =>
      (.error (500, "ExecutionFailed"),
       { m with error500Total := m.error500Total + 1
                lastErrorType := some e.pyName }, sink')

/-- The `finally` block of `predict` and the response mapping
(api_server.py lines 995-1006): the unconditional clamped `active` decrement
and semaphore release run on both the success and the raised-exception exit
of the gated body. -/
def finishGated (gb : Except (Nat × String) Nat × Metrics × SinkState) :
    ApiRes × Metrics × SinkState × List GateEvent :=
  let m4 := { gb.2.1 with active := max 0 (gb.2.1.active - 1) }
  match gb.1 with
  | .ok rows => (.success rows, m4, gb.2.2, [.acquire, .release])
  | .error (st, k) => (.failure st k, m4, gb.2.2, [.acquire, .release])

/-- Slot acquisition, the gated body, and the `finally` block of `predict`
(api_server.py lines 899-1006): `enqueued`/`active` bookkeeping, the body,
then the release on every exit path. -/
def predictGated (env : Env) (svcOpt : Option Service) (df : Frame) (effLen : Nat)
    (sink : SinkState) (m : Metrics) : ApiRes × Metrics × SinkState × List GateEvent :=
  let m1 := { m with enqueued := m.enqueued + 1 }
  let m2 := { m1 with active := m1.active + 1 }
  finishGated (gatedBody env svcOpt df effLen sink m2)

/-- The `/predict` handler (api_server.py lines 805-1069): cache
short-circuit, force-ok toggle, request preparation (all its client errors
returned before any slot is touched), cached-dataframe fallback, effective
horizon resolution, then the gated execution region. -/
def predictEndpoint {α : Type} [Inhabited α] (env : Env) (parseTs : α → Option Int)
    (toNum : α → Option Val) (inp : EndpointIn α) (sink : SinkState) (m : Metrics) :
    ApiRes × Metrics × SinkState × List GateEvent :=
  let reqNoData : Bool :=
    match inp.req with
    | none => true
    | some r => r.data.isEmpty
  let cacheHit : Bool :=
    inp.cacheEnabled &&
    (inp.req.isNone ||
      (reqNoData && inp.queryLen.isNone && (inp.req.bind (fun r => r.inferenceLength)).isNone)) &&
    inp.svc.isSome && inp.lastResponse.isSome
  if cacheHit then
    (.successCached, { m with servedCached := m.servedCached + 1 }, sink, [])
  else if inp.forceOk then (.success 0, m, sink, [])
  else
    let prepared : Except PrepErr (Option (Frame × List String)) :=
      match inp.req with
      | some r =>
        if ¬ r.data.isEmpty then
          match prepare env parseTs toNum (expectedFeatureColumns inp.svc) r with
          | .error pe => .error pe
          | .ok fr => .ok (some fr)
        else .ok none
      | none => .ok none
    match prepared with
    | .error pe => (.failure 400 pe.kind, m, sink, [])
    | .ok preparedOpt =>
      let effLen := ((inp.queryLen).orElse
        (fun _ => inp.req.bind (fun r => r.inferenceLength))).getD 1
      match preparedOpt with
      | some (f, rc) =>
        if ¬ (rc.filter (fun c => ¬ c ∈ f.cols)).isEmpty then
          (.failure 400 "MissingFeatureColumns", m, sink, [])
        else predictGated env inp.svc f effLen sink m
      | none =>
        match inp.svc with
        | none => (.failure 400 "NoCachedDataframe", m, sink, [])
        | some s =>
          match s.df with
          | none => (.failure 400 "NoCachedDataframe", m, sink, [])
          | some d => predictGated env inp.svc d effLen sink m

/-- One lifecycle event of a request against a clamped activity counter. -/
inductive CounterOp
  | start
  | finish
  deriving DecidableEq, Repr

/-- Update pair of `queue_metrics["active"]`: increment on acquisition
(api_server.py line 907), clamped decrement in the `finally` block
(line 997). -/
def applyQueueActiveOp (a : Int) : CounterOp → Int
  | .start => a + 1
  | .finish => max 0 (a - 1)

/-- Update pair of `Inferencer._active_jobs`: `_mark_job_started`
(inferencer.py line 345) and the clamped `_mark_job_finished`
(line 349). -/
def applyActiveJobsOp (a : Int) : CounterOp → Int
  | .start => a + 1
  | .finish => max 0 (a - 1)

/-- Row count of a returned prediction table, `None` on skip or failure. -/
def inferRows (r : Except Exc (Option Frame) × SinkState) : Option Nat :=
  match r.1 with
  | .ok (some f) => some f.nRows
  | _ => none

/-- Horizons of the predictor calls a statsforecast run performed. -/
def sfCallLog (r : Except Exc (Frame × List Nat)) : Option (List Nat) :=
  match r with
  | .ok (_, l) => some l
  | _ => none

/-! Concrete fixtures used by witnesses and counterexamples. -/

/-- A concrete process environment: default `SAMPLE_IDX=0`,
`INFERENCE_LENGTH=1`, uploads on, `pd.Timedelta` mapping "2min" to 2 units
and anything else to 1 unit, a constant nonempty content hash. -/
def envA : Env :=
  { sampleIdx := 0, inferenceLengthEnv := 1, disableLogUpload := false
    tdNs := fun s => if s = "2min" then 2 else 1
    hashHead3 := fun _ => "h3", timeFeatVal := fun _ _ => 0 }

/-- A 3-row single-column uniformly spaced table. -/
def frame3 : Frame := { index := [0, 10, 20], cols := ["value"], cell := fun _ _ => 0 }

/-- A concrete loaded predictor: the pytorch interface answers one
single-feature step per call, the prophet interface echoes its input frame,
the stats interface returns a fresh `h`-row frame. -/
def predA : Predictor :=
  { pytorch := fun _ => .ok [[3]]
    prophet := fun f => .ok f
    stats := fun h _ =>
      .ok { index := (List.range h).map (fun i => (i : Int)), cols := ["value"]
            cell := fun _ _ => 0 } }

/-- An empty sink/dedup state. -/
def sink0 : SinkState := { emitted := [], log := [] }

/-- Zeroed endpoint metrics. -/
def m0 : Metrics :=
  { enqueued := 0, completed := 0, servedCached := 0, error500Total := 0
    active := 0, lastErrorType := none }

/-- A loaded single-step sequence-model service over `frame3`-shaped data. -/
def svcPy : Service :=
  { model := some predA, scaler := none, df := none, inputSeqLen := 1
    outputSeqLen := 1, modelClass := "pytorch", params := [], runId := "run1" }

/-- Identity timestamp parsing for integer-cell payloads. -/
def parseId : Int → Option Int := fun v => some v

/-- Numeric coercion for integer-cell payloads. -/
def toNumA : Int → Option Val := fun _ => some 0

/-- A predictor stub that fails on every shape, with a distinguished message
for the original 3-D shape. -/
def pFailAll : NpArr → Except Exc Unit := fun a =>
  if a.shape.length = 3 then .error (.other "original shape error")
  else .error (.other "fallback shape error")

/-- A `[1, 2, 2]` window. -/
def dataA : NpArr := { shape := [1, 2, 2], entry := fun _ _ => 0 }

/-- The spec's example payload: 3 rows all carrying the same timestamp. -/
def pDup : Payload Int :=
  { data := [("ts", [5, 5, 5]), ("value", [1, 1, 1])], indexCol := none
    inferenceLength := none }

/-- The indexed table `pDup` reduces to after stage 1. -/
def sDup : RawIndexed Int := { index := [5, 5, 5], cols := [("value", [1, 1, 1])] }

/-- A loaded statsforecast service with no resampling configured
(`downsampling == "0"`). -/
def svcSf0 : Service :=
  { model := some predA, scaler := none, df := none, inputSeqLen := 0
    outputSeqLen := 0, modelClass := "statsforecast"
    params := [("downsampling", "0")], runId := "run1" }

/-- A loaded statsforecast service with a 2:1 resampling ratio configured. -/
def svcSfRe : Service :=
  { svcSf0 with params := [("downsampling", "2min"), ("frequency", "1min")] }

/-- A scaler whose inverse transform always raises. -/
def badScaler : Scaler := { inverseTransform := fun _ => .error (.other "inverse failed") }

/-- A service whose model never loaded. -/
def svcNoModel : Service :=
  { model := none, scaler := none, df := none, inputSeqLen := 1, outputSeqLen := 1
    modelClass := "pytorch", params := [], runId := "run1" }

/-- A well-formed 3-row request payload. -/
def pOk : Payload Int :=
  { data := [("ts", [0, 60, 120]), ("value", [1, 1, 1])], indexCol := none
    inferenceLength := none }

/-- A `/predict` invocation of `pOk` against the no-model service. -/
def inpC1 : EndpointIn Int :=
  { req := some pOk, queryLen := some 5, svc := some svcNoModel, cacheEnabled := false
    forceOk := false, lastResponse := none }

/-- The prepared table and required columns `pOk` reduces to. -/
def prepResC1 : Frame × List String :=
  match prepare envA parseId toNumA (expectedFeatureColumns (some svcNoModel)) pOk with
  | .ok pr => pr
  | .error _ => (frame3, [])

/-- A loaded statsforecast service whose MLflow params lack the
`downsampling` key. -/
def svcNoParams : Service :=
  { model := some predA, scaler := none, df := some frame3, inputSeqLen := 0
    outputSeqLen := 0, modelClass := "statsforecast", params := [], runId := "run1" }

/-- A payload-less `/predict` invocation against `svcNoParams`. -/
def inpC5 : EndpointIn Int :=
  { req := none, queryLen := some 5, svc := some svcNoParams, cacheEnabled := false
    forceOk := false, lastResponse := none }

/-- A payload with no recognizable timestamp column. -/
def pNoTs : Payload Int :=
  { data := [("value", [1, 2])], indexCol := none, inferenceLength := none }

/-- A `/predict` invocation of `pNoTs`. -/
def inpC5w : EndpointIn Int :=
  { req := some pNoTs, queryLen := none, svc := some svcNoModel, cacheEnabled := false
    forceOk := false, lastResponse := none }

/-! Helper lemmas. -/

lemma applyQueueActiveOp_nonneg {a : Int} (h : 0 ≤ a) (op : CounterOp) :
    0 ≤ applyQueueActiveOp a op := by
  cases op
  · simpa [applyQueueActiveOp] using by omega
  · exact le_max_left 0 (a - 1)

lemma applyActiveJobsOp_nonneg {a : Int} (h : 0 ≤ a) (op : CounterOp) :
    0 ≤ applyActiveJobsOp a op := by
  cases op
  · simpa [applyActiveJobsOp] using by omega
  · exact le_max_left 0 (a - 1)

lemma foldl_applyQueueActiveOp_nonneg (ops : List CounterOp) :
    ∀ a : Int, 0 ≤ a → 0 ≤ ops.foldl applyQueueActiveOp a := by
  induction ops with
  | nil => intro a h; simpa using h
  | cons op rest ih =>
    intro a h
    exact ih _ (applyQueueActiveOp_nonneg h op)

lemma foldl_applyActiveJobsOp_nonneg (ops : List CounterOp) :
    ∀ a : Int, 0 ≤ a → 0 ≤ ops.foldl applyActiveJobsOp a := by
  induction ops with
  | nil => intro a h; simpa using h
  | cons op rest ih =>
    intro a h
    exact ih _ (applyActiveJobsOp_nonneg h op)

/-! Claim theorems. -/

/-- C10: both the endpoint-level `active` counter and the executor's
`_active_jobs` counter decrement with a clamp at zero, so after any sequence
of request starts and finishes from the initial zero the observed value is
never negative. -/
theorem active_counters_nonneg (ops : List CounterOp) :
    0 ≤ ops.foldl applyQueueActiveOp 0 ∧ 0 ≤ ops.foldl applyActiveJobsOp 0 :=
  ⟨foldl_applyQueueActiveOp_nonneg ops 0 le_rfl,
   foldl_applyActiveJobsOp_nonneg ops 0 le_rfl⟩

/-- C6: with a loaded model, a positive input window, and fewer rows than
`input_window_len + output_window_len`, `perform_inference` returns the
Skipped signal (`None`) without raising and without touching the sink. -/
theorem insufficient_rows_skips (env : Env) (svc : Service) (pred : Predictor)
    (dfEval : Frame) (lenOpt : Option Nat) (sink : SinkState)
    (hm : svc.model = some pred) (hin : 0 < svc.inputSeqLen)
    (hrows : dfEval.nRows < svc.inputSeqLen + svc.outputSeqLen) :
    performInference env svc (some dfEval) lenOpt sink = (.ok none, sink) := by
  unfold performInference
  rw [hm]
  simp only []
  rw [if_pos ⟨hin, hrows⟩]

/-- C6 witness: a 3-row table against a window needing 1 + 5 rows is
skipped. -/
theorem insufficient_rows_skips_witness :
    0 < 5 ∧ frame3.nRows < 5 + 1 ∧
    performInference envA
      { svcPy with inputSeqLen := 5, outputSeqLen := 1 } (some frame3) (some 7) sink0 =
      (.ok none, sink0) :=
  ⟨by decide, by decide,
   insufficient_rows_skips envA _ predA frame3 (some 7) sink0 rfl (by decide) (by decide)⟩

/-- C7: the pytorch-branch predictor call tries the window as given, then
with the leading singleton dimension squeezed, then flattened to 2-D, in
that order; when every strategy fails, the first (original) error is the one
raised. -/
theorem shape_fallback_strategy {β : Type} (p : NpArr → Except Exc β) (data : NpArr)
    (h3 : data.shape.length = 3) (h1 : data.shape.headD 0 = 1) :
    (∀ r, p data = .ok r → predictWithFallbacks p data = .ok r) ∧
    (∀ e r, p data = .error e → p data.squeeze0 = .ok r →
      predictWithFallbacks p data = .ok r) ∧
    (∀ e e₁ r, p data = .error e → p data.squeeze0 = .error e₁ →
      p data.flatten2 = .ok r → predictWithFallbacks p data = .ok r) ∧
    (∀ e e₁ e₂, p data = .error e → p data.squeeze0 = .error e₁ →
      p data.flatten2 = .error e₂ → predictWithFallbacks p data = .error e) := by
  refine ⟨?_, ?_, ?_, ?_⟩ <;> intros <;>
    simp_all [predictWithFallbacks]

/-- C7 witness: when all three strategies fail on a `[1, 2, 2]` window, the
original error surfaces. -/
theorem shape_fallback_strategy_witness :
    dataA.shape.length = 3 ∧ dataA.shape.headD 0 = 1 ∧
    predictWithFallbacks pFailAll dataA = .error (.other "original shape error") :=
  ⟨rfl, rfl,
   (shape_fallback_strategy pFailAll dataA rfl rfl).2.2.2 _ _ _ rfl rfl rfl⟩

/-- C9: for a non-empty run id and content hash not yet emitted, the first
save-and-publish appends exactly one log line and records the dedup key, and
an immediately repeated identical save changes nothing (no second
append). -/
theorem dedup_second_append_skipped (env : Env) (svc : Service) (sink : SinkState)
    (f : Frame)
    (hup : env.disableLogUpload = false)
    (hr : svc.runId ≠ "")
    (hh : env.hashHead3 f ≠ "")
    (hfresh : (svc.runId, env.hashHead3 f) ∉ sink.emitted) :
    saveAndPublish env svc sink f =
      { emitted := sink.emitted ++ [(svc.runId, env.hashHead3 f)]
        log := sink.log ++ [(svc.runId, env.hashHead3 f)] } ∧
    saveAndPublish env svc (saveAndPublish env svc sink f) f =
      saveAndPublish env svc sink f := by
  have h1 : saveAndPublish env svc sink f =
      { emitted := sink.emitted ++ [(svc.runId, env.hashHead3 f)]
        log := sink.log ++ [(svc.runId, env.hashHead3 f)] } := by
    unfold saveAndPublish
    rw [if_neg (by simp [hup])]
    rw [if_neg (by intro hcon; exact hfresh hcon.2.2)]
    rw [if_pos ⟨hr, hh⟩]
  refine ⟨h1, ?_⟩
  rw [h1]
  unfold saveAndPublish
  rw [if_neg (by simp [hup])]
  rw [if_pos ⟨hr, hh, List.mem_append_right _ (List.mem_singleton_self _)⟩]

/-- C9 witness: two identical saves under run id "run1" append one line. -/
theorem dedup_second_append_skipped_witness :
    envA.disableLogUpload = false ∧ svcPy.runId ≠ "" ∧ envA.hashHead3 frame3 ≠ "" ∧
    (svcPy.runId, envA.hashHead3 frame3) ∉ sink0.emitted ∧
    (saveAndPublish envA svcPy sink0 frame3).log = [("run1", "h3")] ∧
    saveAndPublish envA svcPy (saveAndPublish envA svcPy sink0 frame3) frame3 =
      saveAndPublish envA svcPy sink0 frame3 := by
  obtain ⟨h1, h2⟩ :=
    dedup_second_append_skipped envA svcPy sink0 frame3 rfl (by decide) (by decide)
      (by simp [sink0])
  exact ⟨rfl, by decide, by decide, by simp [sink0], by rw [h1]; rfl, h2⟩

/-- C4: whenever the indexed, sorted, timezone-normalized table has more than
one row but a single unique timestamp, request preparation fails with the
`DuplicateTimestamps` client error naming the degenerate timestamp and the
row count — it never returns a table. -/
theorem duplicate_timestamps_rejected {α : Type} [Inhabited α] (env : Env)
    (parseTs : α → Option Int) (toNum : α → Option Val) (required : List String)
    (p : Payload α) (s : RawIndexed α)
    (h1 : prepareStage1 parseTs p = .ok s)
    (h2 : 1 < s.index.length)
    (h3 : s.index.eraseDups.length = 1) :
    prepare env parseTs toNum required p =
      .error (.duplicateTimestamps (s.index.headD 0) s.index.length) := by
  unfold prepare
  rw [h1]
  show prepareStage2 env toNum required s = _
  unfold prepareStage2
  rw [if_pos ⟨h3, h2⟩]

/-- C4 witness: the 3-identical-timestamps payload is rejected with
`DuplicateTimestamps` naming timestamp 5 and row count 3. -/
theorem duplicate_timestamps_rejected_witness :
    prepareStage1 parseId pDup = .ok sDup ∧ 1 < sDup.index.length ∧
    sDup.index.eraseDups.length = 1 ∧
    prepare envA parseId toNumA [] pDup = .error (.duplicateTimestamps 5 3) :=
  ⟨rfl, by decide, by decide,
   duplicate_timestamps_rejected envA parseId toNumA [] pDup sDup rfl (by decide)
     (by decide)⟩

/-- C3: the statsforecast branch makes exactly one predictor call, but with
no resampling configured the horizon it passes is the process-start module
constant `INFERENCE_LENGTH` (here 1), not the request's effective inference
length (here 5) — contradicting `perform_inference`'s documented
`inference_length` override, which the resampling arm of the same function
honours (`ceil(5 * 1 / 2) = 3`). -/
theorem sf_horizon_ignores_request_length :
    sfCallLog (performStatsforecast envA svcSf0 predA frame3 frame3 5) = some [1] ∧
    envA.inferenceLengthEnv = 1 ∧ (1 : Nat) ≠ 5 ∧
    sfCallLog (performStatsforecast envA svcSfRe predA frame3 frame3 5) = some [3] ∧
    (5 * envA.tdNs "1min" + envA.tdNs "2min" - 1) / envA.tdNs "2min" = 3 :=
  ⟨rfl, rfl, by decide, rfl, by decide⟩

/-! Index-preservation lemmas for the row-count claim. -/

lemma Frame.setCells_index (f : Frame) (r : Nat) (ps : List (String × Val)) :
    (f.setCells r ps).index = f.index := rfl

lemma Frame.addCol_index (f : Frame) (c : String) (v : Val) :
    (f.addCol c v).index = f.index := by
  unfold Frame.addCol
  split <;> rfl

lemma Frame.dropColsList_index (f : Frame) (cs : List String) :
    (f.dropColsList cs).index = f.index := rfl

lemma timeToFeature_index (env : Env) (f : Frame) :
    (timeToFeature env f).index = f.index := rfl

lemma dateRange_length (s : Int) (n : Nat) (d : Int) : (dateRange s n d).length = n := by
  unfold dateRange
  rw [List.length_map, List.length_range]

lemma writeBlockCell_index (ctx : PyCtx) (preds : Frame) (a : Nat) (v : List Val) :
    (writeBlockCell ctx preds a v).index = preds.index := by
  unfold writeBlockCell
  split
  · rfl
  · split <;> rfl

lemma applyInverseScalingCaught_index (sc : Option Scaler) (f : Frame) :
    (applyInverseScalingCaught sc f).index = f.index := by
  cases sc with
  | none => rfl
  | some s =>
    simp only [applyInverseScalingCaught]
    split <;> rfl

lemma applyInverseScalingStrict_ok_index {sc : Option Scaler} {f g : Frame}
    (h : applyInverseScalingStrict sc f = .ok g) : g.index = f.index := by
  cases sc with
  | none =>
    simp only [applyInverseScalingStrict, Except.ok.injEq] at h
    rw [← h]
  | some s =>
    simp only [applyInverseScalingStrict] at h
    split at h
    · simp only [Except.ok.injEq] at h
      rw [← h]
    · simp at h

lemma pyInner_index (ctx : PyCtx) (mp : List (List Val)) (step : Nat) :
    ∀ (k i : Nat) (preds : Frame) (seq : NpArr) (preds' : Frame) (seq' : NpArr),
      pyInner ctx mp step k i preds seq = .ok (preds', seq') →
      preds'.index = preds.index := by
  intro k
  induction k with
  | zero =>
    intro i preds seq p' s' h
    simp only [pyInner, Except.ok.injEq, Prod.mk.injEq] at h
    rw [← h.1]
  | succ k ih =>
    intro i preds seq p' s' h
    simp only [pyInner] at h
    split at h
    · simp only [Except.ok.injEq, Prod.mk.injEq] at h
      rw [← h.1]
    · split at h
      · simp at h
      · split at h
        · have := ih (i + 1) _ _ _ _ h
          rw [this, writeBlockCell_index]
        · split at h
          · split at h
            · simp at h
            · have := ih (i + 1) _ _ _ _ h
              rw [this, writeBlockCell_index]
          · simp only [Except.ok.injEq, Prod.mk.injEq] at h
            rw [← h.1, writeBlockCell_index]

lemma pyOuter_index (ctx : PyCtx) :
    ∀ (k step : Nat) (preds : Frame) (seq : NpArr) (g : Frame),
      pyOuter ctx k step preds seq = .ok g → g.index = preds.index := by
  intro k
  induction k with
  | zero =>
    intro step preds seq g h
    simp only [pyOuter, Except.ok.injEq] at h
    rw [← h]
  | succ k ih =>
    intro step preds seq g h
    simp only [pyOuter] at h
    split at h
    · simp at h
    · split at h
      · simp at h
      · next p' s' heq =>
        have h1 := ih _ _ _ _ h
        have h2 := pyInner_index ctx _ step _ _ _ _ _ _ heq
        rw [h1, h2]

lemma pytorchLoopRun_index {env : Env} {svc : Service} {pred : Predictor}
    {dfEval dfPred0 g : Frame} {L : Nat}
    (h : pytorchLoopRun env svc pred dfEval dfPred0 L = .ok g) :
    g.index = dfPred0.index := by
  simp only [pytorchLoopRun] at h
  split at h
  · have := pyOuter_index _ _ _ _ _ _ h
    rw [this]
    split <;> split <;> first
      | rfl
      | exact Frame.addCol_index _ _ _
  · simp at h

lemma performPytorch_ok_rows {env : Env} {svc : Service} {pred : Predictor}
    {dfEval dfPred f : Frame} {L : Nat}
    (h : performPytorch env svc pred dfEval dfPred L = .ok f) :
    f.index = dfPred.index := by
  unfold performPytorch at h
  split at h
  · cases h
  · next g heq =>
    cases h
    rw [applyInverseScalingCaught_index, Frame.dropColsList_index]
    exact pytorchLoopRun_index heq

lemma performProphet_ok_rows {pred : Predictor} {sc : Option Scaler} {dfPred f : Frame}
    (hp : ∀ fin fout, pred.prophet fin = .ok fout → fout.nRows = fin.nRows)
    (h : performProphet pred sc dfPred = .ok f) : f.nRows = dfPred.nRows := by
  unfold performProphet at h
  split at h
  · cases h
  · next out heq =>
    have h1 : f.index = out.index := applyInverseScalingStrict_ok_index h
    have h2 := hp _ _ heq
    unfold Frame.nRows at *
    rw [h1, h2]

lemma sfPlan_noresample {env : Env} {svc : Service} {dfEval dfPred : Frame} {L : Nat}
    (h : svc.params.lookup "downsampling" = some "0") :
    sfPlan env svc dfEval dfPred L =
      .ok (env.inferenceLengthEnv, some (dfPred.selectCols TIME_FEATURES)) := by
  unfold sfPlan
  rw [h]
  simp

lemma sfPlan_resample {env : Env} {svc : Service} {dfEval dfPred : Frame} {L : Nat}
    {d fq : String}
    (hd : svc.params.lookup "downsampling" = some d) (hne : d ≠ "0")
    (hf : svc.params.lookup "frequency" = some fq) (hdf : d ≠ fq)
    (hz : env.tdNs d ≠ 0) (hs : env.sampleIdx < dfEval.nRows) :
    ∃ exog, sfPlan env svc dfEval dfPred L =
      .ok ((L * env.tdNs fq + env.tdNs d - 1) / env.tdNs d, exog) := by
  unfold sfPlan
  rw [hd]
  simp only [hne, if_false, hf, hdf, if_false, hz, hs, if_true]
  exact ⟨_, rfl⟩

lemma performStatsforecast_ok_rows {env : Env} {svc : Service} {pred : Predictor}
    {dfEval dfPred f : Frame} {L : Nat} {lg : List Nat}
    (hc : ∀ h X out, pred.stats h X = .ok out → out.nRows = h)
    (h : performStatsforecast env svc pred dfEval dfPred L = .ok (f, lg)) :
    ∃ hh exog, sfPlan env svc dfEval dfPred L = .ok (hh, exog) ∧
      f.nRows = hh ∧ lg = [hh] := by
  unfold performStatsforecast at h
  split at h
  · simp at h
  · next hh exog heq =>
    split at h
    · simp at h
    · next out hout =>
      split at h
      · simp at h
      · next g hg =>
        simp only [Except.ok.injEq, Prod.mk.injEq] at h
        refine ⟨hh, exog, heq, ?_, h.2.symm⟩
        have h1 : g.index = out.index := applyInverseScalingStrict_ok_index hg
        have h2 := hc _ _ _ hout
        rw [← h.1]
        unfold Frame.nRows at *
        rw [h1, h2]

lemma sfPlan_ok_horizon {env : Env} {svc : Service} {dfEval dfPred : Frame} {L hh : Nat}
    {exog : Option Frame} {d : String}
    (hd : svc.params.lookup "downsampling" = some d)
    (heq : sfPlan env svc dfEval dfPred L = .ok (hh, exog)) :
    (d = "0" ∧ hh = env.inferenceLengthEnv) ∨
    (∃ fq, svc.params.lookup "frequency" = some fq ∧
      ((d = fq ∧ hh = env.inferenceLengthEnv) ∨
       (d ≠ fq ∧ hh = (L * env.tdNs fq + env.tdNs d - 1) / env.tdNs d))) := by
  simp only [sfPlan, hd] at heq
  split at heq
  · next hzero =>
    simp only [Except.ok.injEq, Prod.mk.injEq] at heq
    exact Or.inl ⟨hzero, heq.1.symm⟩
  · next hnz =>
    split at heq
    · simp at heq
    · next fq hfq =>
      split at heq
      · next heqq =>
        simp only [Except.ok.injEq, Prod.mk.injEq] at heq
        exact Or.inr ⟨fq, hfq, Or.inl ⟨heqq, heq.1.symm⟩⟩
      · next hneq =>
        split at heq
        · simp at heq
        · split at heq
          · simp only [Except.ok.injEq, Prod.mk.injEq] at heq
            exact Or.inr ⟨fq, hfq, Or.inr ⟨hneq, heq.1.symm⟩⟩
          · simp at heq

lemma inferRows_some_elim {r : Except Exc (Option Frame) × SinkState} {n : Nat}
    (h : inferRows r = some n) : ∃ f, r.1 = .ok (some f) ∧ f.nRows = n := by
  unfold inferRows at h
  split at h
  · next f heq =>
    simp only [Option.some.injEq] at h
    exact ⟨f, heq, h⟩
  · simp at h

lemma except_map_fst_ok {r : Except Exc (Frame × List Nat)} {f : Frame}
    (h : r.map Prod.fst = .ok f) : ∃ lg, r = .ok (f, lg) := by
  cases r with
  | error e => simp [Except.map] at h
  | ok pr =>
    simp only [Except.map, Except.ok.injEq] at h
    exact ⟨pr.2, by rw [← h]⟩

lemma performInference_ok_branch {env : Env} {svc : Service} {pred : Predictor}
    {dfEval f : Frame} {L : Nat} {sink sink' : SinkState}
    (hm : svc.model = some pred)
    (h : performInference env svc (some dfEval) (some L) sink = (.ok (some f), sink')) :
    ∃ dfPred : Frame, dfPred.nRows = L ∧
      ((svc.modelClass = "pytorch" ∧ performPytorch env svc pred dfEval dfPred L = .ok f) ∨
       (svc.modelClass = "prophet" ∧ performProphet pred svc.scaler dfPred = .ok f) ∨
       (svc.modelClass = "statsforecast" ∧
         (performStatsforecast env svc pred dfEval dfPred L).map Prod.fst = .ok f)) := by
  simp only [performInference, hm] at h
  split at h
  · simp at h
  · split at h
    · simp at h
    · split at h
      · simp at h
      · next td htd =>
        split at h
        · simp at h
        · next f' hbr =>
          simp only [Prod.mk.injEq, Except.ok.injEq, Option.some.injEq] at h
          split at hbr
          · next hcls =>
            refine ⟨_, ?_, Or.inl ⟨hcls, by rw [← h.1]; exact hbr⟩⟩
            show (timeToFeature _ _).nRows = L
            unfold Frame.nRows
            rw [timeToFeature_index]
            exact dateRange_length _ _ _
          · split at hbr
            · next hcls =>
              refine ⟨_, ?_, Or.inr (Or.inl ⟨hcls, by rw [← h.1]; exact hbr⟩)⟩
              show (timeToFeature _ _).nRows = L
              unfold Frame.nRows
              rw [timeToFeature_index]
              exact dateRange_length _ _ _
            · split at hbr
              · next hcls =>
                refine ⟨_, ?_, Or.inr (Or.inr ⟨hcls, by rw [← h.1]; exact hbr⟩)⟩
                show (timeToFeature _ _).nRows = L
                unfold Frame.nRows
                rw [timeToFeature_index]
                exact dateRange_length _ _ _
              · simp at hbr

/-- C2 (amended): when the executor returns a prediction table (not
Skipped), its row count is exactly the requested horizon `H` in the
sequence branch, and in the seasonal branch whenever the prophet predictor
returns one row per input row; in the multi-horizon-stats branch (predictor
returning `h` rows for horizon `h`) the row count instead equals the single
call's horizon: the module constant `INFERENCE_LENGTH` when no resampling is
configured, and `ceil(H * native_freq / downsampling_freq)` when a
resampling ratio is configured. -/
theorem prediction_row_counts (env : Env) (svc : Service) (pred : Predictor)
    (dfEval : Frame) (L : Nat) (sink : SinkState)
    (hm : svc.model = some pred) :
    (svc.modelClass = "pytorch" →
      ∀ n, inferRows (performInference env svc (some dfEval) (some L) sink) = some n →
        n = L) ∧
    (svc.modelClass = "prophet" →
      (∀ fin fout, pred.prophet fin = .ok fout → fout.nRows = fin.nRows) →
      ∀ n, inferRows (performInference env svc (some dfEval) (some L) sink) = some n →
        n = L) ∧
    (svc.modelClass = "statsforecast" →
      (∀ hh X out, pred.stats hh X = .ok out → out.nRows = hh) →
      svc.params.lookup "downsampling" = some "0" →
      ∀ n, inferRows (performInference env svc (some dfEval) (some L) sink) = some n →
        n = env.inferenceLengthEnv) ∧
    (svc.modelClass = "statsforecast" →
      (∀ hh X out, pred.stats hh X = .ok out → out.nRows = hh) →
      ∀ d fq, svc.params.lookup "downsampling" = some d → d ≠ "0" →
        svc.params.lookup "frequency" = some fq → d ≠ fq →
      ∀ n, inferRows (performInference env svc (some dfEval) (some L) sink) = some n →
        n = (L * env.tdNs fq + env.tdNs d - 1) / env.tdNs d) := by
  have base : ∀ n, inferRows (performInference env svc (some dfEval) (some L) sink) = some n →
      ∃ f sink', performInference env svc (some dfEval) (some L) sink = (.ok (some f), sink') ∧
        f.nRows = n := by
    intro n hn
    obtain ⟨f, h1, h2⟩ := inferRows_some_elim hn
    exact ⟨f, _, by rw [← h1], h2⟩
  refine ⟨?_, ?_, ?_, ?_⟩
  · intro hcls n hn
    obtain ⟨f, sink', hperf, hrows⟩ := base n hn
    obtain ⟨dfPred, hlen, hbr⟩ := performInference_ok_branch hm hperf
    rcases hbr with ⟨_, hok⟩ | ⟨hc, _⟩ | ⟨hc, _⟩
    · have := performPytorch_ok_rows hok
      unfold Frame.nRows at *
      rw [← hrows, this, hlen]
    · rw [hcls] at hc; exact absurd hc (by decide)
    · rw [hcls] at hc; exact absurd hc (by decide)
  · intro hcls hp n hn
    obtain ⟨f, sink', hperf, hrows⟩ := base n hn
    obtain ⟨dfPred, hlen, hbr⟩ := performInference_ok_branch hm hperf
    rcases hbr with ⟨hc, _⟩ | ⟨_, hok⟩ | ⟨hc, _⟩
    · rw [hcls] at hc; exact absurd hc (by decide)
    · have := performProphet_ok_rows hp hok
      rw [← hrows, this, hlen]
    · rw [hcls] at hc; exact absurd hc (by decide)
  · intro hcls hcontract hd n hn
    obtain ⟨f, sink', hperf, hrows⟩ := base n hn
    obtain ⟨dfPred, hlen, hbr⟩ := performInference_ok_branch hm hperf
    rcases hbr with ⟨hc, _⟩ | ⟨hc, _⟩ | ⟨_, hok⟩
    · rw [hcls] at hc; exact absurd hc (by decide)
    · rw [hcls] at hc; exact absurd hc (by decide)
    · obtain ⟨lg, hok'⟩ := except_map_fst_ok hok
      obtain ⟨hh, exog, hplan, hfr, _⟩ := performStatsforecast_ok_rows hcontract hok'
      rw [sfPlan_noresample hd] at hplan
      simp only [Except.ok.injEq, Prod.mk.injEq] at hplan
      rw [← hrows, hfr, ← hplan.1]
  · intro hcls hcontract d fq hd hne hf hdf n hn
    obtain ⟨f, sink', hperf, hrows⟩ := base n hn
    obtain ⟨dfPred, hlen, hbr⟩ := performInference_ok_branch hm hperf
    rcases hbr with ⟨hc, _⟩ | ⟨hc, _⟩ | ⟨_, hok⟩
    · rw [hcls] at hc; exact absurd hc (by decide)
    · rw [hcls] at hc; exact absurd hc (by decide)
    · obtain ⟨lg, hok'⟩ := except_map_fst_ok hok
      obtain ⟨hh, exog, hplan, hfr, _⟩ := performStatsforecast_ok_rows hcontract hok'
      rcases sfPlan_ok_horizon hd hplan with ⟨h0, _⟩ | ⟨fq', hfq', hrest⟩
      · exact absurd h0 hne
      · rw [hf] at hfq'
        injection hfq' with hfq''
        rcases hrest with ⟨heqq, _⟩ | ⟨_, hform⟩
        · rw [← hfq''] at heqq
          exact absurd heqq hdf
        · rw [← hrows, hfr, hform, hfq'']

/-- C2 counterexample: a loaded multi-horizon-stats model with a 2:1
resampling ratio and requested horizon 5 returns a 3-row prediction table
(the resampled horizon `ceil(5 * 1 / 2) = 3`), without being Skipped. -/
theorem row_count_not_horizon_counterexample :
    inferRows (performInference envA svcSfRe (some frame3) (some 5) sink0) = some 3 ∧
    (3 : Nat) ≠ 5 :=
  ⟨rfl, by decide⟩

/-- C2 witness: a sequence model asked for horizon 2 over a 3-row table
returns exactly 2 rows. -/
theorem prediction_row_counts_witness :
    svcPy.model = some predA ∧ svcPy.modelClass = "pytorch" ∧
    inferRows (performInference envA svcPy (some frame3) (some 2) sink0) = some 2 ∧
    (2 : Nat) = 2 :=
  ⟨rfl, rfl, rfl, (prediction_row_counts envA svcPy predA frame3 2 sink0 rfl).1 rfl 2 rfl⟩

/-- C8 counterexample: in the seasonal (prophet) branch, an
inverse-transform exception propagates as a failure of the whole call rather
than yielding the raw prediction values. -/
theorem inverse_failure_fails_prophet_counterexample :
    performProphet predA (some badScaler) frame3 = .error (.other "inverse failed") := rfl

/-- C8 (amended): in the sequence branch an inverse-transform failure is
caught and the raw (still-scaled) frame is returned, and a missing scaler
yields the raw frame in every branch; but in the seasonal and
multi-horizon-stats branches an inverse-transform exception propagates as a
failure of the call. -/
theorem inverse_scaling_policy :
    (∀ (env : Env) (svc : Service) (pred : Predictor) (dfEval dfPred g : Frame)
        (L : Nat) (s : Scaler) (e : Exc),
      svc.scaler = some s →
      pytorchLoopRun env svc pred dfEval dfPred L = .ok g →
      s.inverseTransform (g.dropColsList TIME_FEATURES) = .error e →
      performPytorch env svc pred dfEval dfPred L = .ok (g.dropColsList TIME_FEATURES)) ∧
    (∀ (env : Env) (svc : Service) (pred : Predictor) (dfEval dfPred g : Frame) (L : Nat),
      svc.scaler = none →
      pytorchLoopRun env svc pred dfEval dfPred L = .ok g →
      performPytorch env svc pred dfEval dfPred L = .ok (g.dropColsList TIME_FEATURES)) ∧
    (∀ (pred : Predictor) (dfPred out : Frame),
      pred.prophet dfPred = .ok out →
      performProphet pred none dfPred = .ok out) ∧
    (∀ (pred : Predictor) (dfPred out : Frame) (s : Scaler) (e : Exc),
      pred.prophet dfPred = .ok out → s.inverseTransform out = .error e →
      performProphet pred (some s) dfPred = .error e) ∧
    (∀ (env : Env) (svc : Service) (pred : Predictor) (dfEval dfPred out : Frame)
        (L hh : Nat) (exog : Option Frame),
      svc.scaler = none →
      sfPlan env svc dfEval dfPred L = .ok (hh, exog) →
      pred.stats hh exog = .ok out →
      performStatsforecast env svc pred dfEval dfPred L = .ok (out, [hh])) ∧
    (∀ (env : Env) (svc : Service) (pred : Predictor) (dfEval dfPred out : Frame)
        (L hh : Nat) (exog : Option Frame) (s : Scaler) (e : Exc),
      svc.scaler = some s →
      sfPlan env svc dfEval dfPred L = .ok (hh, exog) →
      pred.stats hh exog = .ok out →
      s.inverseTransform out = .error e →
      performStatsforecast env svc pred dfEval dfPred L = .error e) := by
  refine ⟨?_, ?_, ?_, ?_, ?_, ?_⟩
  · intro env svc pred dfEval dfPred g L s e hsc hloop hinv
    simp [performPytorch, hloop, applyInverseScalingCaught, hsc, hinv]
  · intro env svc pred dfEval dfPred g L hsc hloop
    simp [performPytorch, hloop, applyInverseScalingCaught, hsc]
  · intro pred dfPred out hp
    simp [performProphet, hp, applyInverseScalingStrict]
  · intro pred dfPred out s e hp hinv
    simp [performProphet, hp, applyInverseScalingStrict, hinv]
  · intro env svc pred dfEval dfPred out L hh exog hsc hplan hstats
    simp [performStatsforecast, hplan, hstats, applyInverseScalingStrict, hsc]
  · intro env svc pred dfEval dfPred out L hh exog s e hsc hplan hstats hinv
    simp [performStatsforecast, hplan, hstats, applyInverseScalingStrict, hsc, hinv]

/-- C8 witness: the prophet branch without a scaler returns the raw
predictor output. -/
theorem inverse_scaling_policy_witness :
    predA.prophet frame3 = .ok frame3 ∧
    performProphet predA none frame3 = .ok frame3 :=
  ⟨rfl, inverse_scaling_policy.2.2.1 predA frame3 frame3 rfl⟩

/-- C1 counterexample: with a well-formed payload and no loaded model the
endpoint returns the 500-equivalent "Inference skipped" execution error, not
a 503-equivalent ServiceNotReady. -/
theorem no_model_maps_to_500_counterexample :
    (predictEndpoint envA parseId toNumA inpC1 sink0 m0).1 = .failure 500 "InferenceSkipped" ∧
    (predictEndpoint envA parseId toNumA inpC1 sink0 m0).1.status = 500 ∧
    (predictEndpoint envA parseId toNumA inpC1 sink0 m0).1.status ≠ 503 :=
  ⟨rfl, rfl, by decide⟩

/-- C1 (amended): while no model is loaded, the executor defers with the
`None` signal — no exception — for every well-formed prepared payload, and
the serving endpoint surfaces that as the 500-equivalent "Inference skipped"
error (`last_error_type` InferenceSkipped), not as a 503-equivalent
ServiceNotReady. -/
theorem no_model_defers_and_maps_to_skip {α : Type} [Inhabited α] (env : Env)
    (parseTs : α → Option Int) (toNum : α → Option Val) (inp : EndpointIn α)
    (sink : SinkState) (m : Metrics) (s : Service) (r : Payload α)
    (f : Frame) (rc : List String)
    (hsvc : inp.svc = some s) (hmodel : s.model = none)
    (hreq : inp.req = some r) (hdata : r.data ≠ [])
    (hforce : inp.forceOk = false)
    (hprep : prepare env parseTs toNum (expectedFeatureColumns inp.svc) r = .ok (f, rc))
    (hrc : rc.filter (fun c => ¬ c ∈ f.cols) = []) :
    (∀ (L : Nat) (sink₂ : SinkState),
      performInference env s (some f) (some L) sink₂ = (.ok none, sink₂)) ∧
    (predictEndpoint env parseTs toNum inp sink m).1 = .failure 500 "InferenceSkipped" := by
  have hperf : ∀ (L : Nat) (sink₂ : SinkState),
      performInference env s (some f) (some L) sink₂ = (.ok none, sink₂) := by
    intro L sink₂
    simp [performInference, hmodel]
  have hde : r.data.isEmpty = false := by
    cases hcase : r.data with
    | nil => exact absurd hcase hdata
    | cons a l => rfl
  have hprep' : prepare env parseTs toNum (expectedFeatureColumns (some s)) r = .ok (f, rc) := by
    rw [← hsvc]; exact hprep
  refine ⟨hperf, ?_⟩
  have hnc : ¬∃ x ∈ rc, x ∉ f.cols := by
    intro hex
    obtain ⟨x, hx, hnx⟩ := hex
    exact (List.filter_eq_nil_iff.mp hrc x hx) (decide_eq_true hnx)
  simp [predictEndpoint, hreq, hsvc, hde, hforce, hprep', predictGated, gatedBody, hperf,
    hnc]
  rfl

/-- C1 witness: the concrete no-model request is deferred by the executor
and answered with the 500-equivalent skip error. -/
theorem no_model_defers_and_maps_to_skip_witness :
    inpC1.svc = some svcNoModel ∧ svcNoModel.model = none ∧ pOk.data ≠ [] ∧
    performInference envA svcNoModel (some prepResC1.1) (some 5) sink0 = (.ok none, sink0) ∧
    (predictEndpoint envA parseId toNumA inpC1 sink0 m0).1 = .failure 500 "InferenceSkipped" := by
  obtain ⟨h1, h2⟩ :=
    no_model_defers_and_maps_to_skip envA parseId toNumA inpC1 sink0 m0 svcNoModel pOk
      prepResC1.1 prepResC1.2 rfl rfl rfl (by decide) rfl rfl rfl
  exact ⟨rfl, rfl, by decide, h1 5 sink0, h2⟩

lemma finishGated_trace (gb : Except (Nat × String) Nat × Metrics × SinkState) :
    (finishGated gb).2.2.2 = [.acquire, .release] := by
  obtain ⟨r, m3, sink'⟩ := gb
  cases r with
  | ok rows => rfl
  | error e => obtain ⟨st, k⟩ := e; rfl

lemma predictGated_trace (env : Env) (svcOpt : Option Service) (df : Frame)
    (effLen : Nat) (sink : SinkState) (m : Metrics) :
    (predictGated env svcOpt df effLen sink m).2.2.2 = [.acquire, .release] := by
  unfold predictGated
  exact finishGated_trace _

/-- C5 (amended): the concurrency-gate trace of every request is either
empty (no slot ever touched) or exactly acquire-then-release (the slot is
released on every exit path once acquired); and every RequestPreparer
validation failure on a provided payload is returned with an empty trace,
before any slot is touched.  (A missing-key client error arising during
execution is still mapped to a 400 but occurs after acquisition — see the
counterexample.) -/
theorem slot_discipline {α : Type} [Inhabited α] (env : Env) (parseTs : α → Option Int)
    (toNum : α → Option Val) (inp : EndpointIn α) (sink : SinkState) (m : Metrics) :
    ((predictEndpoint env parseTs toNum inp sink m).2.2.2 = [] ∨
      (predictEndpoint env parseTs toNum inp sink m).2.2.2 = [.acquire, .release]) ∧
    (∀ (r : Payload α) (pe : PrepErr), inp.req = some r → r.data ≠ [] →
      inp.forceOk = false →
      prepare env parseTs toNum (expectedFeatureColumns inp.svc) r = .error pe →
      (predictEndpoint env parseTs toNum inp sink m).1 = .failure 400 pe.kind ∧
      (predictEndpoint env parseTs toNum inp sink m).2.2.2 = []) := by
  constructor
  · unfold predictEndpoint
    dsimp only
    repeat' split
    all_goals first
      | (left; rfl)
      | (right; exact predictGated_trace _ _ _ _ _ _)
  · intro r pe hreq hdata hforce hprep
    have hde : r.data.isEmpty = false := by
      cases hcase : r.data with
      | nil => exact absurd hcase hdata
      | cons a l => rfl
    constructor <;>
      simp [predictEndpoint, hreq, hde, hforce, hprep]

/-- C5 counterexample: a missing-key `KeyError` during execution is mapped to
a 400 missing-columns client error after the slot was acquired — the trace is
acquire-release, not empty, so a client error can consume a slot. -/
theorem client_error_after_acquisition_counterexample :
    (predictEndpoint envA parseId toNumA inpC5 sink0 m0).1 = .failure 400 "MissingColumns" ∧
    (predictEndpoint envA parseId toNumA inpC5 sink0 m0).2.2.2 = [.acquire, .release] ∧
    ([GateEvent.acquire, GateEvent.release] : List GateEvent) ≠ [] :=
  ⟨rfl, rfl, by decide⟩

/-- C5 witness: a preparation failure (no timestamp column) is answered with
a 400 and an empty gate trace. -/
theorem slot_discipline_witness :
    inpC5w.req = some pNoTs ∧ pNoTs.data ≠ [] ∧ inpC5w.forceOk = false ∧
    prepare envA parseId toNumA (expectedFeatureColumns inpC5w.svc) pNoTs =
      .error .noTimestampColumn ∧
    (predictEndpoint envA parseId toNumA inpC5w sink0 m0).1 =
      .failure 400 "NoTimestampColumn" ∧
    (predictEndpoint envA parseId toNumA inpC5w sink0 m0).2.2.2 = [] := by
  obtain ⟨h1, h2⟩ :=
    (slot_discipline envA parseId toNumA inpC5w sink0 m0).2 pNoTs .noTimestampColumn rfl
      (by decide) rfl rfl
  exact ⟨rfl, by decide, rfl, rfl, h1, h2⟩

end KubeflowInfer
